import Mathlib

/-!
Verification development for the smartquiz live-quiz backend.

The definitions below are a shallow embedding of the relevant backend code:

* backend/src/config/supabase.js (socket handlers: start-game, submit-answer,
  next-question, plus the helpers startQuestionTimer, checkAndProgressGame and
  progressToNextQuestion, and the in-memory gameStates map);
* backend/src/controllers/authController.js (joinGame with its
  recentJoinRequests dedup cache, and createGameSession with its PIN retry
  loop);
* database-schema.sql (the table shapes; note that player_sessions and
  player_answers carry NO uniqueness constraint beyond their primary key,
  while game_sessions.game_pin is globally UNIQUE).

Conventions: uuids become Nat surrogates, timestamps become Nat milliseconds,
JS numbers for elapsed answer time become Rat, and each supabase query
.single() becomes selectSingle (some row exactly when the filter matches one
row, none on zero or several matches, mirroring the code which destructures
only the data field and treats errors as null data).  Database writes are
modeled as pure functions on a Db record.  Timestamp columns that the code
writes but never reads back (created_at, started_at, ended_at) are omitted.
-/

namespace SmartQuiz

/-- Supabase .single(): the data field is a row exactly when the filter keeps
one row, and null (none) when it keeps zero rows or several rows. -/
def selectSingle {α : Type} (l : List α) (p : α → Bool) : Option α :=
  match l.filter p with
  | [a] => some a
  | _ => none

/-- Stable insertion used by sortBy. -/
def insertSorted {α : Type} (le : α → α → Bool) (a : α) : List α → List α
  | [] => [a]
  | b :: l => if le a b then a :: b :: l else b :: insertSorted le a l

/-- Sort embedding the JS Array.sort comparator calls (ascending by key for
a comparator a.k - b.k, descending for the score ordering). -/
def sortBy {α : Type} (le : α → α → Bool) : List α → List α
  | [] => []
  | a :: l => insertSorted le a (sortBy le l)

inductive SessionStatus
  | waiting
  | active
  | completed
deriving BEq, DecidableEq

structure QuizRow where
  id : Nat
  creator_id : Nat
deriving BEq, DecidableEq

structure QuestionRow where
  id : Nat
  quiz_id : Nat
  question_text : String
  time_limit : Nat
  points : Nat
  order_index : Nat
deriving BEq, DecidableEq

structure AnswerOptionRow where
  id : Nat
  question_id : Nat
  option_text : String
  is_correct : Bool
  color : String
deriving BEq, DecidableEq

structure GameSessionRow where
  id : Nat
  quiz_id : Nat
  host_id : Nat
  game_pin : Nat
  status : SessionStatus
  current_question_index : Nat
deriving BEq, DecidableEq

structure PlayerSessionRow where
  id : Nat
  game_session_id : Nat
  user_id : Option Nat
  nickname : String
  score : Int
deriving BEq, DecidableEq

structure PlayerAnswerRow where
  player_session_id : Nat
  question_id : Nat
  answer_option_id : Nat
  answer_time : ℚ
  points_earned : Int
deriving DecidableEq

/-- The relational store (database-schema.sql).  player_sessions and
player_answers have no uniqueness constraint on (session, nickname) resp.
(participant, question); game_sessions.game_pin is UNIQUE over the table. -/
structure Db where
  quizzes : List QuizRow
  questions : List QuestionRow
  answer_options : List AnswerOptionRow
  game_sessions : List GameSessionRow
  player_sessions : List PlayerSessionRow
  player_answers : List PlayerAnswerRow
deriving DecidableEq

/-- Nested select of the answer options belonging to one question. -/
def optionsFor (db : Db) (questionId : Nat) : List AnswerOptionRow :=
  db.answer_options.filter (fun o => o.question_id == questionId)

/-- A question object as fetched by the start-game / progression queries:
the question columns together with its nested answer_options. -/
structure QuestionFull where
  id : Nat
  question_text : String
  time_limit : Nat
  points : Nat
  order_index : Nat
  answer_options : List AnswerOptionRow
deriving BEq, DecidableEq

def questionFull (db : Db) (q : QuestionRow) : QuestionFull :=
  { id := q.id, question_text := q.question_text, time_limit := q.time_limit,
    points := q.points, order_index := q.order_index,
    answer_options := optionsFor db q.id }

/-- The question list of a quiz as the handlers see it:
questions.sort((a, b) => a.order_index - b.order_index), options nested. -/
def quizQuestions (db : Db) (quizId : Nat) : List QuestionFull :=
  (sortBy (fun a b => a.order_index ≤ b.order_index)
      (db.questions.filter (fun q => q.quiz_id == quizId))).map (questionFull db)

/-- An answer option as transmitted to clients: the map
opt => ({ id, option_text, color }) from both questionForClient sites. -/
structure ClientAnswerOption where
  id : Nat
  option_text : String
  color : String
deriving BEq, DecidableEq

def stripOption (o : AnswerOptionRow) : ClientAnswerOption :=
  { id := o.id, option_text := o.option_text, color := o.color }

/-- A question payload as broadcast to clients (game-started and
next-question): the question with the correct flag removed from options. -/
structure ClientQuestion where
  id : Nat
  question_text : String
  time_limit : Nat
  points : Nat
  order_index : Nat
  answer_options : List ClientAnswerOption
deriving BEq, DecidableEq

/-- The questionForClient construction used by both the start-game handler
and progressToNextQuestion. -/
def questionForClient (q : QuestionFull) : ClientQuestion :=
  { id := q.id, question_text := q.question_text, time_limit := q.time_limit,
    points := q.points, order_index := q.order_index,
    answer_options := q.answer_options.map stripOption }

/-- Overwrite the correctness flag of one option (used to state that client
payloads do not depend on which options are marked correct). -/
def flagOption (f : Nat → Bool) (o : AnswerOptionRow) : AnswerOptionRow :=
  { o with is_correct := f o.id }

def flagFull (f : Nat → Bool) (q : QuestionFull) : QuestionFull :=
  { q with answer_options := q.answer_options.map (flagOption f) }

/-- Reassign every correctness flag in the store. -/
def dbSetCorrect (db : Db) (f : Nat → Bool) : Db :=
  { db with answer_options := db.answer_options.map (flagOption f) }

/-! Scoring, from the submit-answer handler:
const maxPoints = 1000;
const timeBonus = Math.max(0, 1 - (answerTime / 30));
const points = answerOption.is_correct ? Math.round(maxPoints * timeBonus) : 0;
Math.round on these nonnegative values is round half up, i.e. Mathlib round. -/

def maxPoints : ℚ := 1000

def timeBonus (answerTime : ℚ) : ℚ := max 0 (1 - answerTime / 30)

def calcPoints (isCorrect : Bool) (answerTime : ℚ) : ℤ :=
  if isCorrect then round (maxPoints * timeBonus answerTime) else 0

/-! The in-memory live game state (the gameStates map in supabase.js).
The timer handle becomes the duration in milliseconds it was armed with:
startQuestionTimer stores (timeLimit + 2) * 1000 and the early-progression
path in checkAndProgressGame stores 3000.  Firing a timer is modeled as an
explicit later call of progressToNextQuestion. -/

structure GameState where
  players : List Nat
  answeredPlayers : List Nat
  currentQuestionId : Nat
  currentQuestionIndex : Nat
  totalQuestions : Nat
  questionStartTime : Nat
  gameSessionId : Nat
  timer : Option Nat
deriving BEq, DecidableEq

abbrev GameStates : Type := List (Nat × GameState)

def gsLookup (states : GameStates) (gamePin : Nat) : Option GameState :=
  (List.find? (fun e => e.1 == gamePin) states).map (fun e => e.2)

def gsSet (states : GameStates) (gamePin : Nat) (gs : GameState) : GameStates :=
  if (List.find? (fun e => e.1 == gamePin) states).isSome then
    states.map (fun e => if e.1 == gamePin then (gamePin, gs) else e)
  else
    states ++ [(gamePin, gs)]

def gsErase (states : GameStates) (gamePin : Nat) : GameStates :=
  states.filter (fun e => !(e.1 == gamePin))

/-- Socket events emitted to the room or the submitter. -/
inductive Event
  | errorGameNotFound
  | errorNoQuestions
  | answerError
  | gameStarted (question : ClientQuestion) (questionNumber totalQuestions : Nat)
  | nextQuestion (question : ClientQuestion) (questionNumber totalQuestions : Nat)
  | scoreUpdated (players : List PlayerSessionRow)
      (updatedPlayerId : Nat) (updatedPoints : Int) (updatedCorrect : Bool)
  | answerResult (correct : Bool) (points : Int) (correctAnswer : Nat)
  | gameEnded (finalScores : List PlayerSessionRow)
deriving BEq, DecidableEq

/-- startQuestionTimer: read the state, replace any armed timer by one for
(timeLimit + 2) seconds, store the state back. -/
def startQuestionTimer (states : GameStates) (gamePin timeLimit : Nat) : GameStates :=
  match gsLookup states gamePin with
  | none => states
  | some gameState =>
      gsSet states gamePin { gameState with timer := some ((timeLimit + 2) * 1000) }

/-- The increment_player_score stored procedure:
UPDATE player_sessions SET score = score + points_to_add WHERE id = player_id. -/
def incrementScore (db : Db) (playerId : Nat) (points : Int) : Db :=
  { db with player_sessions :=
      db.player_sessions.map (fun p =>
        if p.id == playerId then { p with score := p.score + points } else p) }

/-- checkAndProgressGame: bail out unless the live state exists and still
shows questionId as current; then, if every live player has a persisted
answer for this question, replace the long timer by the 3 second
results-display timer. -/
def checkAndProgressGame (db : Db) (states : GameStates)
    (gamePin questionId : Nat) : GameStates :=
  match gsLookup states gamePin with
  | none => states
  | some gameState =>
    if gameState.currentQuestionId == questionId then
      let answeredPlayerIds :=
        (db.player_answers.filter (fun a => a.question_id == questionId)).map
          (fun a => a.player_session_id)
      let allPlayersAnswered := !gameState.players.isEmpty &&
        gameState.players.all (fun p => answeredPlayerIds.contains p)
      if allPlayersAnswered then
        gsSet states gamePin { gameState with timer := some 3000 }
      else states
    else states

structure SubmitData where
  answerId : Nat
  questionId : Nat
  answerTime : ℚ
  playerId : Nat

/-- The submit-answer socket handler.  insertOk injects the outcome of the
player_answers insert: the schema has no uniqueness constraint on
(player_session_id, question_id), so in the model the insert fails only for a
transient storage error, and on failure the code merely logs and continues. -/
def submitAnswer (insertOk : Bool) (db : Db) (states : GameStates)
    (d : SubmitData) : Db × GameStates × List Event :=
  match selectSingle db.answer_options (fun o => o.id == d.answerId) with
  | none => (db, states, [Event.answerError])
  | some answerOption =>
    let points := calcPoints answerOption.is_correct d.answerTime
    let db1 :=
      if insertOk then
        { db with player_answers := db.player_answers ++
          [{ player_session_id := d.playerId, question_id := d.questionId,
             answer_option_id := d.answerId, answer_time := d.answerTime,
             points_earned := points }] }
      else db
    let db2 := if 0 < points then incrementScore db1 d.playerId points else db1
    match selectSingle db2.player_sessions (fun p => p.id == d.playerId) with
    | none => (db2, states, [Event.answerResult answerOption.is_correct points d.answerId])
    | some playerSession =>
      match selectSingle db2.game_sessions
          (fun g => g.id == playerSession.game_session_id) with
      | none => (db2, states, [Event.answerResult answerOption.is_correct points d.answerId])
      | some gameSession =>
        let updatedPlayers := sortBy (fun a b => b.score ≤ a.score)
          (db2.player_sessions.filter
            (fun p => p.game_session_id == playerSession.game_session_id))
        let states2 := checkAndProgressGame db2 states gameSession.game_pin d.questionId
        (db2, states2,
          [Event.scoreUpdated updatedPlayers d.playerId points answerOption.is_correct,
           Event.answerResult answerOption.is_correct points d.answerId])

/-- progressToNextQuestion: advance to gameState.currentQuestionIndex + 1 or
end the game; there is no comparison against any expected question id. -/
def progressToNextQuestion (db : Db) (states : GameStates)
    (gamePin now : Nat) : Db × GameStates × List Event :=
  match gsLookup states gamePin with
  | none => (db, states, [])
  | some gameState =>
    let nextIndex := gameState.currentQuestionIndex + 1
    match selectSingle db.game_sessions (fun g => g.game_pin == gamePin) with
    | none => (db, states, [])
    | some gameSession =>
      let questions := quizQuestions db gameSession.quiz_id
      if h : nextIndex < questions.length then
        let db1 := { db with game_sessions :=
          db.game_sessions.map (fun g =>
            if g.game_pin == gamePin then
              { g with current_question_index := nextIndex } else g) }
        let nextQuestion := questions.get ⟨nextIndex, h⟩
        let gs1 := { gameState with
          currentQuestionId := nextQuestion.id,
          currentQuestionIndex := nextIndex, answeredPlayers := [],
          questionStartTime := now }
        let states1 := gsSet states gamePin gs1
        let states2 := startQuestionTimer states1 gamePin nextQuestion.time_limit
        (db1, states2,
          [Event.nextQuestion (questionForClient nextQuestion) (nextIndex + 1)
            questions.length])
      else
        let finalScores := sortBy (fun a b => b.score ≤ a.score)
          (db.player_sessions.filter (fun p => p.game_session_id == gameSession.id))
        let db1 := { db with game_sessions :=
          db.game_sessions.map (fun g =>
            if g.game_pin == gamePin then
              { g with status := SessionStatus.completed } else g) }
        (db1, gsErase states gamePin, [Event.gameEnded finalScores])

/-- The start-game socket handler: fetch the session with its sorted
questions, sanitize the first question, initialize the live state with the
roster, broadcast game-started, arm the question timer. -/
def startGameSocket (db : Db) (states : GameStates)
    (gamePin now : Nat) : GameStates × List Event :=
  match selectSingle db.game_sessions (fun g => g.game_pin == gamePin) with
  | none => (states, [Event.errorGameNotFound])
  | some gameSession =>
    match quizQuestions db gameSession.quiz_id with
    | [] => (states, [Event.errorNoQuestions])
    | firstQuestion :: rest =>
      let playerIds := (db.player_sessions.filter
        (fun p => p.game_session_id == gameSession.id)).map (fun p => p.id)
      let gs : GameState :=
        { players := playerIds, answeredPlayers := [],
          currentQuestionId := firstQuestion.id, currentQuestionIndex := 0,
          totalQuestions := (firstQuestion :: rest).length,
          questionStartTime := now, gameSessionId := gameSession.id,
          timer := none }
      let states1 := gsSet states gamePin gs
      let states2 := startQuestionTimer states1 gamePin firstQuestion.time_limit
      (states2,
        [Event.gameStarted (questionForClient firstQuestion) 1
          (firstQuestion :: rest).length])

/-! Join admission (authController.js joinGame) and its request
deduplication cache recentJoinRequests.  The cache key is the template
string gamePin + "-" + nickname, modeled as the pair (gamePin, nickname);
values are the Date.now() timestamps of the recorded requests. -/

abbrev Cache : Type := List ((Nat × String) × Nat)

def DEDUP_TIMEOUT : Nat := 1000

def cacheLookup (c : Cache) (k : Nat × String) : Option Nat :=
  (List.find? (fun e => e.1 == k) c).map (fun e => e.2)

/-- Map.set semantics: overwrite an existing entry, else append. -/
def cacheSet (c : Cache) (k : Nat × String) (v : Nat) : Cache :=
  if (List.find? (fun e => e.1 == k) c).isSome then
    c.map (fun e => if e.1 == k then (k, v) else e)
  else
    c ++ [(k, v)]

def cacheDelete (c : Cache) (k : Nat × String) : Cache :=
  c.filter (fun e => !(e.1 == k))

/-- The garbage-collection loop: drop entries with now - timestamp > 1000. -/
def gcCache (c : Cache) (now : Nat) : Cache :=
  c.filter (fun e => !(DEDUP_TIMEOUT < now - e.2))

/-- The synchronous dedup block at the top of joinGame: reject (none) when
the key was recorded less than DEDUP_TIMEOUT ago, otherwise record the
request and garbage-collect stale entries, returning the new cache. -/
def dedupPass (c : Cache) (k : Nat × String) (now : Nat) : Option Cache :=
  match cacheLookup c k with
  | some lastRequest =>
    if now - lastRequest < DEDUP_TIMEOUT then none
    else some (gcCache (cacheSet c k now) now)
  | none => some (gcCache (cacheSet c k now) now)

/-- The server-side mutable state the join path touches: the store plus the
in-memory dedup cache. -/
structure SrvState where
  db : Db
  cache : Cache
deriving DecidableEq

inductive JoinResult
  | tooFrequent
  | notFound
  | nicknameTaken
  | storageFailed
  | joined (playerId : Nat)
deriving BEq, DecidableEq

/-- joinGame run to completion with no interleaving: dedup block, session
lookup restricted to status waiting, nickname check by SELECT, INSERT of the
player row (insertOk injects a transient storage failure), then on success
delete of the request key followed by clearing the whole cache. -/
def joinGame (now : Nat) (st : SrvState) (gamePin : Nat) (nickname : String)
    (userId : Option Nat) (newPlayerId : Nat) (insertOk : Bool) :
    SrvState × JoinResult :=
  let requestKey := (gamePin, nickname)
  match dedupPass st.cache requestKey now with
  | none => (st, JoinResult.tooFrequent)
  | some cache1 =>
    match selectSingle st.db.game_sessions
        (fun g => g.game_pin == gamePin && g.status == SessionStatus.waiting) with
    | none => ({ st with cache := cache1 }, JoinResult.notFound)
    | some gameSession =>
      match selectSingle st.db.player_sessions
          (fun p => p.game_session_id == gameSession.id && p.nickname == nickname) with
      | some _ => ({ st with cache := cache1 }, JoinResult.nicknameTaken)
      | none =>
        if insertOk then
          let row : PlayerSessionRow :=
            { id := newPlayerId, game_session_id := gameSession.id,
              user_id := userId, nickname := nickname, score := 0 }
          let cache2 := cacheDelete cache1 requestKey
          let cache3 : Cache := List.filter (fun _ => false) cache2
          (⟨{ st.db with player_sessions := st.db.player_sessions ++ [row] },
            cache3⟩,
           JoinResult.joined newPlayerId)
        else ({ st with cache := cache1 }, JoinResult.storageFailed)

/-! An interleaved execution model of joinGame, for the admission-
under-concurrency property.  One in-flight request is a phase; a step runs
the code between two consecutive await points against the shared state:

* ready -> the synchronous dedup block (no await inside);
* passedDedup -> the two read-only queries (session lookup, nickname check);
* passedChecks -> the INSERT and the synchronous cache delete + clear.

Grouping several reads into one step only removes interleavings, so any
trace of this model is a genuine trace of the handler. -/

structure JoinReq where
  gamePin : Nat
  nickname : String
  userId : Option Nat
  newPlayerId : Nat
  arrivedAt : Nat
deriving BEq, DecidableEq

inductive JoinPhase
  | ready
  | passedDedup
  | passedChecks (sessionId : Nat)
  | finished (r : JoinResult)
deriving BEq, DecidableEq

def stepJoin (st : SrvState) (req : JoinReq) :
    JoinPhase → SrvState × JoinPhase
  | JoinPhase.ready =>
    match dedupPass st.cache (req.gamePin, req.nickname) req.arrivedAt with
    | none => (st, JoinPhase.finished JoinResult.tooFrequent)
    | some cache1 => ({ st with cache := cache1 }, JoinPhase.passedDedup)
  | JoinPhase.passedDedup =>
    match selectSingle st.db.game_sessions
        (fun g => g.game_pin == req.gamePin && g.status == SessionStatus.waiting) with
    | none => (st, JoinPhase.finished JoinResult.notFound)
    | some gameSession =>
      match selectSingle st.db.player_sessions
          (fun p => p.game_session_id == gameSession.id &&
            p.nickname == req.nickname) with
      | some _ => (st, JoinPhase.finished JoinResult.nicknameTaken)
      | none => (st, JoinPhase.passedChecks gameSession.id)
  | JoinPhase.passedChecks sessionId =>
    let row : PlayerSessionRow :=
      { id := req.newPlayerId, game_session_id := sessionId,
        user_id := req.userId, nickname := req.nickname, score := 0 }
    ({ db := { st.db with player_sessions := st.db.player_sessions ++ [row] },
       cache := [] },
     JoinPhase.finished (JoinResult.joined req.newPlayerId))
  | JoinPhase.finished r => (st, JoinPhase.finished r)

structure JoinWorld where
  srv : SrvState
  reqs : List (JoinReq × JoinPhase)
deriving DecidableEq

/-- Run one scheduler choice: advance the request at the given index. -/
def stepWorld (w : JoinWorld) (i : Nat) : JoinWorld :=
  match w.reqs.get? i with
  | none => w
  | some (req, phase) =>
    let (srv1, phase1) := stepJoin w.srv req phase
    { srv := srv1, reqs := w.reqs.set i (req, phase1) }

def runJoinSchedule (w : JoinWorld) : List Nat → JoinWorld
  | [] => w
  | i :: rest => runJoinSchedule (stepWorld w i) rest

/-! Session creation (authController.js createGameSession). -/

/-- Math.floor(100000 + Math.random() * 900000), with r the Math.random()
draw in [0, 1). -/
def generateGamePin (r : ℚ) : Nat :=
  (Int.floor ((100000 : ℚ) + r * 900000)).toNat

/-- The collision probe of the retry loop: it looks only at sessions whose
status is waiting. -/
def pinTakenWaiting (db : Db) (gamePin : Nat) : Bool :=
  (selectSingle db.game_sessions
    (fun g => g.game_pin == gamePin && g.status == SessionStatus.waiting)).isSome

def maxAttempts : Nat := 10

/-- The while loop: up to maxAttempts draws from the random stream rand,
stopping at the first pin with no waiting session. -/
def findUniquePinAux (db : Db) (rand : Nat → ℚ) : Nat → Nat → Option Nat
  | _, 0 => none
  | attempt, fuel + 1 =>
    let gamePin := generateGamePin (rand attempt)
    if pinTakenWaiting db gamePin then findUniquePinAux db rand (attempt + 1) fuel
    else some gamePin

def findUniquePin (db : Db) (rand : Nat → ℚ) : Option Nat :=
  findUniquePinAux db rand 0 maxAttempts

inductive CreateResult
  | quizNotFound
  | notOwner
  | codeGenerationFailed
  | sessionCreationFailed
  | created (gamePin : Nat)
deriving BEq, DecidableEq

/-- createGameSession: ownership check, PIN retry loop, INSERT of a waiting
session.  The INSERT respects the schema constraint game_pin UNIQUE over the
whole game_sessions table, so it fails (sessionError, 500) when the chosen
pin equals the pin of any existing session of any status. -/
def createGameSession (db : Db) (rand : Nat → ℚ)
    (quizId hostId newSessionId : Nat) : Db × CreateResult :=
  match selectSingle db.quizzes (fun q => q.id == quizId) with
  | none => (db, CreateResult.quizNotFound)
  | some quiz =>
    if quiz.creator_id != hostId then (db, CreateResult.notOwner)
    else
      match findUniquePin db rand with
      | none => (db, CreateResult.codeGenerationFailed)
      | some gamePin =>
        if db.game_sessions.any (fun g => g.game_pin == gamePin) then
          (db, CreateResult.sessionCreationFailed)
        else
          ({ db with game_sessions := db.game_sessions ++
              [{ id := newSessionId, quiz_id := quizId, host_id := hostId,
                 game_pin := gamePin, status := SessionStatus.waiting,
                 current_question_index := 0 }] },
           CreateResult.created gamePin)

/-! Small observation helpers used by the theorems. -/

/-- Number of persisted Answer rows for one (participant, question) pair. -/
def countAnswers (db : Db) (playerId questionId : Nat) : Nat :=
  (db.player_answers.filter (fun a =>
    a.player_session_id == playerId && a.question_id == questionId)).length

/-- Cumulative score of a participant, when the row exists. -/
def playerScore (db : Db) (playerId : Nat) : Option Int :=
  (selectSingle db.player_sessions (fun p => p.id == playerId)).map (fun p => p.score)

/-- Number of participants of one session carrying one nickname. -/
def countNick (db : Db) (sessionId : Nat) (nickname : String) : Nat :=
  (db.player_sessions.filter (fun p =>
    p.game_session_id == sessionId && p.nickname == nickname)).length

/-! Generic list lemmas used below. -/

theorem filterOfMap {α β : Type} (g : α → β) (p : β → Bool) :
    ∀ l : List α, (l.map g).filter p = (l.filter (fun a => p (g a))).map g := by
  intro l
  induction l with
  | nil => rfl
  | cons a t ih =>
    cases h : p (g a) <;> simp [List.filter_cons, h, ih]

theorem findOfMap {α β : Type} (g : α → β) (p : β → Bool) :
    ∀ l : List α, (l.map g).find? p = (l.find? (fun a => p (g a))).map g := by
  intro l
  induction l with
  | nil => rfl
  | cons a t ih =>
    cases h : p (g a) <;> simp [List.find?_cons, h, ih]

theorem findAppend {α : Type} (p : α → Bool) :
    ∀ l1 l2 : List α, (l1 ++ l2).find? p =
      match l1.find? p with
      | some a => some a
      | none => l2.find? p := by
  intro l1 l2
  induction l1 with
  | nil => rfl
  | cons a t ih =>
    cases h : p a <;> simp [List.find?_cons, h, ih]

theorem selectSingle_map {α β : Type} (g : α → β) (p : β → Bool) (l : List α) :
    selectSingle (l.map g) p = (selectSingle l (fun a => p (g a))).map g := by
  unfold selectSingle
  rw [filterOfMap]
  rcases h : l.filter (fun a => p (g a)) with _ | ⟨a, _ | ⟨b, t⟩⟩ <;> simp

theorem selectSingle_pred {α : Type} (p : α → Bool) (l : List α) (a : α)
    (h : selectSingle l p = some a) : p a = true := by
  unfold selectSingle at h
  rcases hf : l.filter p with _ | ⟨b, _ | ⟨c, t⟩⟩ <;> rw [hf] at h <;>
    simp at h
  subst h
  have : b ∈ l.filter p := by rw [hf]; exact List.mem_singleton.mpr rfl
  exact (List.mem_filter.mp this).2

theorem selectSingle_append_one {α : Type} (p : α → Bool) (l : List α) (a : α)
    (hl : l.filter p = []) (ha : p a = true) :
    selectSingle (l ++ [a]) p = some a := by
  unfold selectSingle
  rw [List.filter_append, hl, List.nil_append, List.filter_cons, if_pos ha]
  rfl

theorem selectSingle_congr {α : Type} (p q : α → Bool) (l : List α)
    (h : ∀ a, p a = q a) : selectSingle l p = selectSingle l q := by
  unfold selectSingle
  rw [funext h]

/-! Scoring lemmas. -/

theorem calcPoints_true_val (t : ℚ) :
    calcPoints true t = round ((1000 : ℚ) * max 0 (1 - t / 30)) := rfl

theorem calcPoints_true_zero : calcPoints true 0 = 1000 := by
  have h1 : timeBonus 0 = 1 := by
    unfold timeBonus
    rw [max_eq_right] <;> norm_num
  unfold calcPoints maxPoints
  rw [if_pos rfl, h1, mul_one]
  have h2 : ((1000 : ℤ) : ℚ) = (1000 : ℚ) := by norm_cast
  rw [← h2]
  exact round_intCast 1000

/-- C5: incorrect answers score 0; correct answers score
round(1000 * max(0, 1 - elapsed / 30)) with the fixed 30 second window (the
handler passes no question time limit to the computation, and every handler
branch reports exactly calcPoints to the submitter); for correct answers the
score is non-increasing in elapsed time, and for nonnegative elapsed time it
lies within [0, 1000]. -/
theorem C5_scoring_spec :
    (∀ t : ℚ, calcPoints false t = 0) ∧
    (∀ t : ℚ, calcPoints true t = round ((1000 : ℚ) * max 0 (1 - t / 30))) ∧
    (∀ (c : Bool) (t1 t2 : ℚ), t1 ≤ t2 → calcPoints c t2 ≤ calcPoints c t1) ∧
    (∀ (c : Bool) (t : ℚ), 0 ≤ t → 0 ≤ calcPoints c t ∧ calcPoints c t ≤ 1000) ∧
    (∀ (insertOk : Bool) (db : Db) (states : GameStates) (d : SubmitData)
        (opt : AnswerOptionRow),
      selectSingle db.answer_options (fun o => o.id == d.answerId) = some opt →
      ((submitAnswer insertOk db states d).2.2).getLast? =
        some (Event.answerResult opt.is_correct
          (calcPoints opt.is_correct d.answerTime) d.answerId)) := by
  refine ⟨fun t => rfl, fun t => rfl, ?_, ?_, ?_⟩
  · intro c t1 t2 h
    cases c
    · exact le_refl 0
    · unfold calcPoints maxPoints timeBonus
      rw [if_pos rfl, if_pos rfl, round_eq, round_eq]
      apply Int.floor_le_floor
      have hm : max 0 (1 - t2 / 30) ≤ max 0 (1 - t1 / 30) :=
        max_le_max (le_refl 0) (by linarith)
      nlinarith
  · intro c t h0
    cases c
    · exact ⟨le_refl 0, by norm_num [calcPoints]⟩
    · unfold calcPoints maxPoints timeBonus
      rw [if_pos rfl]
      constructor
      · rw [round_eq]
        apply Int.le_floor.mpr
        push_cast
        have h1 : (0 : ℚ) ≤ max 0 (1 - t / 30) := le_max_left 0 _
        nlinarith
      · rw [round_eq]
        have h2 : max 0 (1 - t / 30) ≤ 1 := max_le (by norm_num) (by linarith)
        have h3 : Int.floor ((1000 : ℚ) * max 0 (1 - t / 30) + 1 / 2) < 1001 := by
          apply Int.floor_lt.mpr
          push_cast
          nlinarith
        omega
  · intro insertOk db states d opt hopt
    unfold submitAnswer
    rw [hopt]
    dsimp only
    split
    · rfl
    · split
      · rfl
      · rfl

/-! Noninterference of the client payloads in the correctness flags. -/

theorem optionsFor_dbSetCorrect (db : Db) (f : Nat → Bool) (questionId : Nat) :
    optionsFor (dbSetCorrect db f) questionId =
      (optionsFor db questionId).map (flagOption f) := by
  unfold optionsFor dbSetCorrect
  rw [filterOfMap]
  rfl

theorem questionFull_dbSetCorrect (db : Db) (f : Nat → Bool) (q : QuestionRow) :
    questionFull (dbSetCorrect db f) q = flagFull f (questionFull db q) := by
  unfold questionFull flagFull
  rw [optionsFor_dbSetCorrect]

theorem quizQuestions_dbSetCorrect (db : Db) (f : Nat → Bool) (quizId : Nat) :
    quizQuestions (dbSetCorrect db f) quizId =
      (quizQuestions db quizId).map (flagFull f) := by
  unfold quizQuestions
  have hq : (dbSetCorrect db f).questions = db.questions := rfl
  rw [hq, List.map_map]
  have hfun : questionFull (dbSetCorrect db f) =
      (flagFull f ∘ questionFull db) :=
    funext (fun q => questionFull_dbSetCorrect db f q)
  rw [hfun]

theorem questionForClient_flagFull (f : Nat → Bool) (q : QuestionFull) :
    questionForClient (flagFull f q) = questionForClient q := by
  unfold questionForClient flagFull
  simp [List.map_map]
  exact fun a _ => rfl

theorem startGame_events_flags (db : Db) (states : GameStates)
    (gamePin now : Nat) (f : Nat → Bool) :
    (startGameSocket (dbSetCorrect db f) states gamePin now).2 =
      (startGameSocket db states gamePin now).2 := by
  unfold startGameSocket
  have hs : (dbSetCorrect db f).game_sessions = db.game_sessions := rfl
  rw [hs]
  cases hsess : selectSingle db.game_sessions (fun g => g.game_pin == gamePin) with
  | none => rfl
  | some gameSession =>
    dsimp only
    rw [quizQuestions_dbSetCorrect]
    cases hq : quizQuestions db gameSession.quiz_id with
    | nil => rfl
    | cons firstQuestion rest =>
      dsimp only [List.map]
      rw [questionForClient_flagFull]
      simp

theorem progress_events_flags (db : Db) (states : GameStates)
    (gamePin now : Nat) (f : Nat → Bool) :
    (progressToNextQuestion (dbSetCorrect db f) states gamePin now).2.2 =
      (progressToNextQuestion db states gamePin now).2.2 := by
  unfold progressToNextQuestion
  cases hgs : gsLookup states gamePin with
  | none => rfl
  | some gameState =>
    dsimp only
    have hs : (dbSetCorrect db f).game_sessions = db.game_sessions := rfl
    rw [hs]
    cases hsess : selectSingle db.game_sessions (fun g => g.game_pin == gamePin) with
    | none => rfl
    | some gameSession =>
      dsimp only
      rw [quizQuestions_dbSetCorrect]
      have hp : (dbSetCorrect db f).player_sessions = db.player_sessions := rfl
      by_cases h : gameState.currentQuestionIndex + 1 <
          (quizQuestions db gameSession.quiz_id).length
      · rw [dif_pos (by simpa using h), dif_pos h]
        simp [List.get_eq_getElem, List.getElem_map, questionForClient_flagFull]
      · rw [dif_neg (by simpa using h), dif_neg h]
        rfl

/-! Symbolic runs of the submit-answer handler. -/

/-- The store after an accepted submission: the Answer row appended, then the
score increment. -/
def dbAfterSubmit (db : Db) (d : SubmitData) (pts : ℤ) : Db :=
  incrementScore
    { db with player_answers := db.player_answers ++
        [{ player_session_id := d.playerId, question_id := d.questionId,
           answer_option_id := d.answerId, answer_time := d.answerTime,
           points_earned := pts }] } d.playerId pts

theorem selectSingle_incrementScore (db : Db) (playerId : Nat) (pts : ℤ)
    (playerSession : PlayerSessionRow)
    (hplayer : selectSingle db.player_sessions (fun p => p.id == playerId) =
      some playerSession) :
    selectSingle (incrementScore db playerId pts).player_sessions
      (fun p => p.id == playerId) =
      some { playerSession with score := playerSession.score + pts } := by
  have hps : (incrementScore db playerId pts).player_sessions =
      db.player_sessions.map (fun p =>
        if p.id == playerId then { p with score := p.score + pts } else p) := rfl
  rw [hps, selectSingle_map]
  have hcongr : ∀ p : PlayerSessionRow,
      ((if p.id == playerId then { p with score := p.score + pts } else p).id
        == playerId) = (p.id == playerId) := by
    intro p; cases hc : (p.id == playerId) <;> simp [hc]
  have hid : (playerSession.id == playerId) = true :=
    selectSingle_pred (fun q : PlayerSessionRow => q.id == playerId) _ _ hplayer
  rw [selectSingle_congr _ _ _ hcongr, hplayer]
  simp only [Option.map]
  rw [if_pos hid]

theorem countAnswers_dbAfterSubmit (db : Db) (d : SubmitData) (pts : ℤ) :
    countAnswers (dbAfterSubmit db d pts) d.playerId d.questionId =
      countAnswers db d.playerId d.questionId + 1 := by
  unfold countAnswers dbAfterSubmit incrementScore
  dsimp only
  rw [List.filter_append]
  simp [List.filter_cons]

theorem playerScore_dbAfterSubmit (db : Db) (d : SubmitData) (pts : ℤ)
    (playerSession : PlayerSessionRow)
    (hplayer : selectSingle db.player_sessions (fun p => p.id == d.playerId) =
      some playerSession) :
    playerScore (dbAfterSubmit db d pts) d.playerId =
      some (playerSession.score + pts) := by
  unfold playerScore dbAfterSubmit
  have hplayerX : selectSingle
      ({ db with player_answers := db.player_answers ++
        [{ player_session_id := d.playerId, question_id := d.questionId,
           answer_option_id := d.answerId, answer_time := d.answerTime,
           points_earned := pts }] } : Db).player_sessions
      (fun p => p.id == d.playerId) = some playerSession := hplayer
  rw [selectSingle_incrementScore _ d.playerId pts playerSession hplayerX]
  rfl

/-- Symbolic run of an accepted submission along the full success path. -/
theorem submitAnswer_run (db : Db) (states : GameStates) (d : SubmitData)
    (opt : AnswerOptionRow) (playerSession : PlayerSessionRow)
    (gameSession : GameSessionRow) (pts : ℤ)
    (hopt : selectSingle db.answer_options (fun o => o.id == d.answerId) = some opt)
    (hpts : calcPoints opt.is_correct d.answerTime = pts)
    (hpos : 0 < pts)
    (hplayer : selectSingle db.player_sessions (fun p => p.id == d.playerId) =
      some playerSession)
    (hsess : selectSingle db.game_sessions
      (fun g => g.id == playerSession.game_session_id) = some gameSession) :
    submitAnswer true db states d =
      (dbAfterSubmit db d pts,
       checkAndProgressGame (dbAfterSubmit db d pts) states
         gameSession.game_pin d.questionId,
       [Event.scoreUpdated
          (sortBy (fun a b => b.score ≤ a.score)
            ((dbAfterSubmit db d pts).player_sessions.filter
              (fun p => p.game_session_id == playerSession.game_session_id)))
          d.playerId pts opt.is_correct,
        Event.answerResult opt.is_correct pts d.answerId]) := by
  unfold dbAfterSubmit
  unfold submitAnswer
  rw [hopt]
  dsimp only
  rw [hpts, if_pos (rfl : true = true), if_pos hpos]
  have hplayerX : selectSingle
      ({ db with player_answers := db.player_answers ++
        [{ player_session_id := d.playerId, question_id := d.questionId,
           answer_option_id := d.answerId, answer_time := d.answerTime,
           points_earned := pts }] } : Db).player_sessions
      (fun p => p.id == d.playerId) = some playerSession := hplayer
  rw [selectSingle_incrementScore _ d.playerId pts playerSession hplayerX]
  dsimp only
  have hsessX : selectSingle
      (incrementScore
        ({ db with player_answers := db.player_answers ++
          [{ player_session_id := d.playerId, question_id := d.questionId,
             answer_option_id := d.answerId, answer_time := d.answerTime,
             points_earned := pts }] } : Db) d.playerId pts).game_sessions
      (fun g => g.id == playerSession.game_session_id) = some gameSession := hsess
  rw [hsessX]

theorem submitAnswer_insertFail (db : Db) (states : GameStates) (d : SubmitData)
    (opt : AnswerOptionRow) (pts : ℤ)
    (hopt : selectSingle db.answer_options (fun o => o.id == d.answerId) = some opt)
    (hpts : calcPoints opt.is_correct d.answerTime = pts)
    (hpos : 0 < pts) :
    (submitAnswer false db states d).1 = incrementScore db d.playerId pts ∧
    (submitAnswer false db states d).1.player_answers = db.player_answers ∧
    Event.answerError ∉ (submitAnswer false db states d).2.2 := by
  unfold submitAnswer
  rw [hopt]
  dsimp only
  rw [hpts, if_neg Bool.false_ne_true, if_pos hpos]
  refine ⟨?_, ?_, ?_⟩ <;> (repeat' split) <;> simp [incrementScore]

/-- The stale guard of checkAndProgressGame: when the live question id has
moved past the submitted question, the live state is left untouched. -/
theorem checkAndProgress_stale (db : Db) (states : GameStates)
    (gamePin questionId : Nat) (gs : GameState)
    (h : gsLookup states gamePin = some gs)
    (hne : gs.currentQuestionId ≠ questionId) :
    checkAndProgressGame db states gamePin questionId = states := by
  unfold checkAndProgressGame
  rw [h]
  dsimp only
  rw [if_neg (by simp [hne])]

/-! Concrete fixtures: one active three-question game with a single player. -/

def qA : QuestionRow :=
  { id := 5, quiz_id := 50, question_text := "q1", time_limit := 20,
    points := 1000, order_index := 0 }

def qB : QuestionRow :=
  { id := 6, quiz_id := 50, question_text := "q2", time_limit := 20,
    points := 1000, order_index := 1 }

def qC : QuestionRow :=
  { id := 7, quiz_id := 50, question_text := "q3", time_limit := 20,
    points := 1000, order_index := 2 }

def optA : AnswerOptionRow :=
  { id := 100, question_id := 5, option_text := "a", is_correct := true,
    color := "red" }

def sess1 : GameSessionRow :=
  { id := 1, quiz_id := 50, host_id := 90, game_pin := 111111,
    status := SessionStatus.active, current_question_index := 0 }

def ana : PlayerSessionRow :=
  { id := 10, game_session_id := 1, user_id := none, nickname := "Ana",
    score := 0 }

def db4 : Db :=
  { quizzes := [{ id := 50, creator_id := 90 }], questions := [qA, qB, qC],
    answer_options := [optA], game_sessions := [sess1],
    player_sessions := [ana], player_answers := [] }

def gs4 : GameState :=
  { players := [10], answeredPlayers := [], currentQuestionId := 5,
    currentQuestionIndex := 0, totalQuestions := 3, questionStartTime := 0,
    gameSessionId := 1, timer := some 22000 }

def st4 : GameStates := [(111111, gs4)]

def d1 : SubmitData :=
  { answerId := 100, questionId := 5, answerTime := 0, playerId := 10 }

/-- The same live game after the orchestrator advanced to question id 7:
a submission for question 5 is now stale. -/
def gs7 : GameState :=
  { gs4 with currentQuestionId := 7, currentQuestionIndex := 2 }

def st7 : GameStates := [(111111, gs7)]

/-- C5 witness: the monotonicity and bound statements applied at elapsed
times 3 and 5 seconds, and the handler conjunct applied to the fixture
store and submission. -/
theorem C5_scoring_spec_witness :
    ((3 : ℚ) ≤ 5 ∧ calcPoints true 5 ≤ calcPoints true 3) ∧
    ((0 : ℚ) ≤ 5 ∧ 0 ≤ calcPoints true 5 ∧ calcPoints true 5 ≤ 1000) ∧
    ((submitAnswer true db4 st4 d1).2.2).getLast? =
      some (Event.answerResult optA.is_correct
        (calcPoints optA.is_correct d1.answerTime) d1.answerId) :=
  ⟨⟨by norm_num, C5_scoring_spec.2.2.1 true 3 5 (by norm_num)⟩,
   ⟨by norm_num, C5_scoring_spec.2.2.2.1 true 5 (by norm_num)⟩,
   C5_scoring_spec.2.2.2.2 true db4 st4 d1 optA (by decide)⟩

def submit1 : Db × GameStates × List Event := submitAnswer true db4 st4 d1

def submit2 : Db × GameStates × List Event :=
  submitAnswer true submit1.1 submit1.2.1 d1

def ana1000 : PlayerSessionRow := { ana with score := 1000 }

def ana2000 : PlayerSessionRow := { ana with score := 2000 }

/-- C2 counterexample: submitting the same answer twice for question 5
leaves TWO persisted Answer rows for participant 10 and question 5, the
cumulative score is incremented both times (2000, not 1000), and the second
submission is answered with the normal score broadcast and private result —
there is no AlreadyAnswered rejection, contradicting the claim that the
second submission is rejected and leaves the score unchanged. -/
theorem C2_duplicate_answer_accepted :
    countAnswers submit2.1 10 5 = 2 ∧
    playerScore submit2.1 10 = some 2000 ∧
    submit2.2.2 =
      [Event.scoreUpdated [ana2000] 10 1000 true,
       Event.answerResult true 1000 100] := by
  have h1 := submitAnswer_run db4 st4 d1 optA ana sess1 1000
    (by decide) calcPoints_true_zero (by decide) (by decide) (by decide)
  have h2 := submitAnswer_run (dbAfterSubmit db4 d1 1000)
    (checkAndProgressGame (dbAfterSubmit db4 d1 1000) st4 sess1.game_pin
      d1.questionId)
    d1 optA { ana with score := 1000 } sess1 1000
    (by decide) calcPoints_true_zero (by decide) (by decide) (by decide)
  unfold submit2 submit1
  rw [h1]
  dsimp only
  rw [h2]
  refine ⟨by decide, by decide, by decide⟩

/-- C2 (amended): the submit-answer handler performs no duplicate check at
all: even when an Answer row for (participant, question) already exists, an
accepted submission appends one more Answer row for the same pair, raises
the cumulative score once more, and replies with the normal score broadcast
and private result instead of any rejection. -/
theorem C2_second_submission_processed
    (db : Db) (states : GameStates) (d : SubmitData)
    (opt : AnswerOptionRow) (playerSession : PlayerSessionRow)
    (gameSession : GameSessionRow) (pts : ℤ)
    (hopt : selectSingle db.answer_options (fun o => o.id == d.answerId) = some opt)
    (hpts : calcPoints opt.is_correct d.answerTime = pts)
    (hpos : 0 < pts)
    (hplayer : selectSingle db.player_sessions (fun p => p.id == d.playerId) =
      some playerSession)
    (hsess : selectSingle db.game_sessions
      (fun g => g.id == playerSession.game_session_id) = some gameSession)
    (hdup : 0 < countAnswers db d.playerId d.questionId) :
    countAnswers (submitAnswer true db states d).1 d.playerId d.questionId =
      countAnswers db d.playerId d.questionId + 1 ∧
    2 ≤ countAnswers (submitAnswer true db states d).1 d.playerId d.questionId ∧
    playerScore (submitAnswer true db states d).1 d.playerId =
      some (playerSession.score + pts) ∧
    ∃ players, (submitAnswer true db states d).2.2 =
      [Event.scoreUpdated players d.playerId pts opt.is_correct,
       Event.answerResult opt.is_correct pts d.answerId] := by
  rw [submitAnswer_run db states d opt playerSession gameSession pts
    hopt hpts hpos hplayer hsess]
  refine ⟨countAnswers_dbAfterSubmit db d pts, ?_, ?_, ⟨_, rfl⟩⟩
  · rw [countAnswers_dbAfterSubmit db d pts]
    omega
  · exact playerScore_dbAfterSubmit db d pts playerSession hplayer

/-- C2 witness: the amended statement applied to the store that already
holds the first submission of the fixture game. -/
theorem C2_second_submission_processed_witness :
    countAnswers (submitAnswer true (dbAfterSubmit db4 d1 1000) st4 d1).1 10 5 =
      countAnswers (dbAfterSubmit db4 d1 1000) 10 5 + 1 ∧
    2 ≤ countAnswers (submitAnswer true (dbAfterSubmit db4 d1 1000) st4 d1).1 10 5 ∧
    playerScore (submitAnswer true (dbAfterSubmit db4 d1 1000) st4 d1).1 10 =
      some ((1000 : ℤ) + 1000) := by
  have H := C2_second_submission_processed (dbAfterSubmit db4 d1 1000) st4 d1 optA
    { ana with score := 1000 } sess1 1000
    (by decide) calcPoints_true_zero (by decide) (by decide) (by decide)
    (by decide)
  exact ⟨H.1, H.2.1, H.2.2.1⟩

def submit3 : Db × GameStates × List Event := submitAnswer true db4 st7 d1

/-- C3 counterexample: with the live game already on question id 7, a
submission for question 5 is NOT a no-op: the Answer row is persisted, the
score is incremented to 1000, and the submitter receives the normal result;
only the live state is left unchanged.  This contradicts the claim that no
Answer is persisted and the score is unchanged for stale submissions. -/
theorem C3_stale_submission_persisted :
    countAnswers submit3.1 10 5 = 1 ∧
    playerScore submit3.1 10 = some 1000 ∧
    submit3.2.1 = st7 ∧
    submit3.2.2 =
      [Event.scoreUpdated [ana1000] 10 1000 true,
       Event.answerResult true 1000 100] := by
  have h1 := submitAnswer_run db4 st7 d1 optA ana sess1 1000
    (by decide) calcPoints_true_zero (by decide) (by decide) (by decide)
  unfold submit3
  rw [h1]
  refine ⟨by decide, by decide, by decide, by decide⟩

/-- C3 (amended): a stale submission (questionId different from the live
state current question id) leaves the live game state untouched and returns
no error, but it is not a no-op on the store: the Answer row is still
persisted and the cumulative score is still incremented, because the
staleness comparison exists only inside the early-progression check. -/
theorem C3_stale_submission_effects
    (db : Db) (states : GameStates) (d : SubmitData)
    (opt : AnswerOptionRow) (playerSession : PlayerSessionRow)
    (gameSession : GameSessionRow) (pts : ℤ) (gs : GameState)
    (hopt : selectSingle db.answer_options (fun o => o.id == d.answerId) = some opt)
    (hpts : calcPoints opt.is_correct d.answerTime = pts)
    (hpos : 0 < pts)
    (hplayer : selectSingle db.player_sessions (fun p => p.id == d.playerId) =
      some playerSession)
    (hsess : selectSingle db.game_sessions
      (fun g => g.id == playerSession.game_session_id) = some gameSession)
    (hgs : gsLookup states gameSession.game_pin = some gs)
    (hstale : gs.currentQuestionId ≠ d.questionId) :
    (submitAnswer true db states d).2.1 = states ∧
    countAnswers (submitAnswer true db states d).1 d.playerId d.questionId =
      countAnswers db d.playerId d.questionId + 1 ∧
    playerScore (submitAnswer true db states d).1 d.playerId =
      some (playerSession.score + pts) ∧
    ∃ players, (submitAnswer true db states d).2.2 =
      [Event.scoreUpdated players d.playerId pts opt.is_correct,
       Event.answerResult opt.is_correct pts d.answerId] := by
  rw [submitAnswer_run db states d opt playerSession gameSession pts
    hopt hpts hpos hplayer hsess]
  exact ⟨checkAndProgress_stale _ _ _ _ _ hgs hstale,
    countAnswers_dbAfterSubmit db d pts,
    playerScore_dbAfterSubmit db d pts playerSession hplayer, _, rfl⟩

/-- C3 witness: the amended statement at the stale fixture. -/
theorem C3_stale_submission_effects_witness :
    (submitAnswer true db4 st7 d1).2.1 = st7 ∧
    countAnswers (submitAnswer true db4 st7 d1).1 10 5 =
      countAnswers db4 10 5 + 1 ∧
    playerScore (submitAnswer true db4 st7 d1).1 10 = some ((0 : ℤ) + 1000) := by
  have H := C3_stale_submission_effects db4 st7 d1 optA ana sess1 1000 gs7
    (by decide) calcPoints_true_zero (by decide) (by decide) (by decide)
    (by decide) (by decide)
  exact ⟨H.1, H.2.1, H.2.2.1⟩

def submit4 : Db × GameStates × List Event := submitAnswer false db4 st4 d1

/-- C6 counterexample: when the Answer insert fails with a storage error,
the handler still increments the score: afterwards there is no Answer row
for (participant 10, question 5) yet the cumulative score is 1000 — a score
increment without a persisted Answer record, contradicting atomicity. -/
theorem C6_score_without_record :
    countAnswers submit4.1 10 5 = 0 ∧
    playerScore submit4.1 10 = some 1000 ∧
    Event.answerError ∉ submit4.2.2 := by
  obtain ⟨h1, h2, h3⟩ := submitAnswer_insertFail db4 st4 d1 optA 1000
    (by decide) calcPoints_true_zero (by decide)
  refine ⟨?_, ?_, h3⟩
  · unfold submit4 countAnswers
    rw [h2]
    decide
  · unfold submit4
    rw [h1]
    decide

/-- C6 (amended): a storage error on the Answer insert is logged and
swallowed, not propagated: the handler continues, the score increment is
still applied (score rises by the computed points while player_answers is
unchanged), and the submitter still receives a success-shaped reply — the
operation is not atomic. -/
theorem C6_insert_failure_nonatomic
    (db : Db) (states : GameStates) (d : SubmitData)
    (opt : AnswerOptionRow) (pts : ℤ) (playerSession : PlayerSessionRow)
    (hopt : selectSingle db.answer_options (fun o => o.id == d.answerId) = some opt)
    (hpts : calcPoints opt.is_correct d.answerTime = pts)
    (hpos : 0 < pts)
    (hplayer : selectSingle db.player_sessions (fun p => p.id == d.playerId) =
      some playerSession) :
    (submitAnswer false db states d).1.player_answers = db.player_answers ∧
    countAnswers (submitAnswer false db states d).1 d.playerId d.questionId =
      countAnswers db d.playerId d.questionId ∧
    playerScore (submitAnswer false db states d).1 d.playerId =
      some (playerSession.score + pts) ∧
    Event.answerError ∉ (submitAnswer false db states d).2.2 := by
  obtain ⟨h1, h2, h3⟩ := submitAnswer_insertFail db states d opt pts hopt hpts hpos
  refine ⟨h2, ?_, ?_, h3⟩
  · unfold countAnswers
    rw [h2]
  · rw [h1]
    unfold playerScore
    rw [selectSingle_incrementScore db d.playerId pts playerSession hplayer]
    rfl

/-- C6 witness: the amended statement at the fixture game. -/
theorem C6_insert_failure_nonatomic_witness :
    (submitAnswer false db4 st4 d1).1.player_answers = db4.player_answers ∧
    countAnswers (submitAnswer false db4 st4 d1).1 10 5 =
      countAnswers db4 10 5 ∧
    playerScore (submitAnswer false db4 st4 d1).1 10 = some ((0 : ℤ) + 1000) ∧
    Event.answerError ∉ (submitAnswer false db4 st4 d1).2.2 :=
  C6_insert_failure_nonatomic db4 st4 d1 optA 1000 ana
    (by decide) calcPoints_true_zero (by decide) (by decide)

theorem gsLookup_gsSet (states : GameStates) (gamePin : Nat) (gs : GameState) :
    gsLookup (gsSet states gamePin gs) gamePin = some gs := by
  unfold gsLookup gsSet
  by_cases h : (List.find? (fun e => e.1 == gamePin) states).isSome
  · rw [if_pos h, findOfMap]
    have hp : (fun e : Nat × GameState =>
        ((if e.1 == gamePin then (gamePin, gs) else e).1 == gamePin)) =
        (fun e : Nat × GameState => e.1 == gamePin) := by
      funext e
      cases he : (e.1 == gamePin) <;> simp [he]
    rw [hp]
    obtain ⟨e0, he0⟩ := Option.isSome_iff_exists.mp h
    rw [he0]
    have hpe := List.find?_some he0
    simp only [Option.map]
    rw [if_pos hpe]
  · rw [if_neg h, findAppend, Option.not_isSome_iff_eq_none.mp h]
    simp [List.find?]

def advance1 : Db × GameStates × List Event :=
  progressToNextQuestion db4 st4 111111 1000

def advance2 : Db × GameStates × List Event :=
  progressToNextQuestion advance1.1 advance1.2.1 111111 2000

/-- C4 counterexample: after a first invocation has already advanced the
fixture game from question id 5 to question id 6, a second invocation (the
losing side of a timer/host race armed at the same question) is NOT a no-op:
it advances again to index 2 / question id 7 and broadcasts another
next-question event, so the transition runs twice, not once — there is no
re-check of the current question id inside progressToNextQuestion. -/
theorem C4_double_advance :
    ((gsLookup advance1.2.1 111111).map (fun g => g.currentQuestionIndex) =
      some 1) ∧
    ((gsLookup advance1.2.1 111111).map (fun g => g.currentQuestionId) =
      some 6) ∧
    ((gsLookup advance2.2.1 111111).map (fun g => g.currentQuestionIndex) =
      some 2) ∧
    advance2.2.1 ≠ advance1.2.1 ∧
    advance2.2.2 =
      [Event.nextQuestion (questionForClient (questionFull db4 qC)) 3 3] := by
  decide

/-- C4 (amended): the question-id re-check exists only in
checkAndProgressGame (the early-progression evaluation), which is a no-op
when the submitted question id is stale; progressToNextQuestion itself is
unguarded: whenever a live state and the session row exist and another
question remains, every invocation advances the index by one. -/
theorem C4_progress_guard_location :
    (∀ (db : Db) (states : GameStates) (gamePin questionId : Nat)
        (gs : GameState),
      gsLookup states gamePin = some gs → gs.currentQuestionId ≠ questionId →
      checkAndProgressGame db states gamePin questionId = states) ∧
    (∀ (db : Db) (states : GameStates) (gamePin now : Nat) (gs : GameState)
        (gameSession : GameSessionRow),
      gsLookup states gamePin = some gs →
      selectSingle db.game_sessions (fun g => g.game_pin == gamePin) =
        some gameSession →
      gs.currentQuestionIndex + 1 < (quizQuestions db gameSession.quiz_id).length →
      (gsLookup (progressToNextQuestion db states gamePin now).2.1 gamePin).map
        (fun g2 => g2.currentQuestionIndex) =
        some (gs.currentQuestionIndex + 1)) := by
  constructor
  · exact fun db states gamePin questionId gs h hne =>
      checkAndProgress_stale db states gamePin questionId gs h hne
  · intro db states gamePin now gs gameSession hgs hsess h
    unfold progressToNextQuestion
    rw [hgs]
    dsimp only
    rw [hsess]
    dsimp only
    rw [dif_pos h]
    dsimp only
    unfold startQuestionTimer
    rw [gsLookup_gsSet]
    dsimp only
    rw [gsLookup_gsSet]
    rfl

/-- C4 witness: the guard statement applied at the stale fixture state and
the unguarded-advance statement applied at the fixture game. -/
theorem C4_progress_guard_location_witness :
    checkAndProgressGame db4 st7 111111 5 = st7 ∧
    (gsLookup (progressToNextQuestion db4 st4 111111 1000).2.1 111111).map
      (fun g2 => g2.currentQuestionIndex) = some (gs4.currentQuestionIndex + 1) :=
  ⟨C4_progress_guard_location.1 db4 st7 111111 5 gs7 (by decide) (by decide),
   C4_progress_guard_location.2 db4 st4 111111 1000 gs4 sess1
     (by decide) (by decide) (by decide)⟩

/-- C7: every question payload built for clients is sanitized: the options
carry only id, option text and color, and the payload (hence the
game-started and next-question event lists of both emitting handlers) is
unchanged under any reassignment of the correctness flags in the store. -/
theorem C7_sanitized_payloads :
    (∀ q : QuestionFull, (questionForClient q).answer_options =
        q.answer_options.map stripOption) ∧
    (∀ (f : Nat → Bool) (q : QuestionFull),
        questionForClient (flagFull f q) = questionForClient q) ∧
    (∀ (db : Db) (states : GameStates) (gamePin now : Nat) (f : Nat → Bool),
        (startGameSocket (dbSetCorrect db f) states gamePin now).2 =
          (startGameSocket db states gamePin now).2) ∧
    (∀ (db : Db) (states : GameStates) (gamePin now : Nat) (f : Nat → Bool),
        (progressToNextQuestion (dbSetCorrect db f) states gamePin now).2.2 =
          (progressToNextQuestion db states gamePin now).2.2) :=
  ⟨fun _ => rfl, questionForClient_flagFull, startGame_events_flags,
   progress_events_flags⟩

/-! Join admission claims. -/

theorem filterFalseNil {α : Type} : ∀ l : List α,
    List.filter (fun _ => false) l = [] := by
  intro l
  induction l with
  | nil => rfl
  | cons a t ih => simp [List.filter_cons, ih]

def sessJ1 : GameSessionRow :=
  { id := 1, quiz_id := 50, host_id := 90, game_pin := 111111,
    status := SessionStatus.waiting, current_question_index := 0 }

def sessJ2 : GameSessionRow :=
  { id := 2, quiz_id := 51, host_id := 91, game_pin := 222222,
    status := SessionStatus.waiting, current_question_index := 0 }

def dbJ : Db :=
  { quizzes := [], questions := [], answer_options := [],
    game_sessions := [sessJ1, sessJ2], player_sessions := [],
    player_answers := [] }

def carlos : String := "Carlos"

def dana : String := "Dana"

def reqA : JoinReq :=
  { gamePin := 111111, nickname := carlos, userId := none, newPlayerId := 10,
    arrivedAt := 0 }

def reqB : JoinReq :=
  { gamePin := 111111, nickname := carlos, userId := none, newPlayerId := 11,
    arrivedAt := 0 }

def reqC : JoinReq :=
  { gamePin := 222222, nickname := dana, userId := none, newPlayerId := 12,
    arrivedAt := 0 }

def w0 : JoinWorld :=
  { srv := { db := dbJ, cache := [] },
    reqs := [(reqA, JoinPhase.ready), (reqB, JoinPhase.ready),
             (reqC, JoinPhase.ready)] }

def raceSchedule : List Nat := [0, 2, 2, 2, 1, 0, 1, 0, 1]

def wF : JoinWorld := runJoinSchedule w0 raceSchedule

/-- C1 counterexample: an interleaving of two join attempts for
(111111, Carlos) with an unrelated successful join for (222222, Dana) in
between.  The Dana join clears the whole fingerprint cache, so the second
Carlos attempt passes the dedup gate; both Carlos attempts then pass the
nickname check before either insert lands, and BOTH finish joined — the
final roster holds two participants named Carlos in session 1,
contradicting exactly-one-success and roster uniqueness. -/
theorem C1_join_race_two_successes :
    wF.reqs.map (fun e => e.2) =
      [JoinPhase.finished (JoinResult.joined 10),
       JoinPhase.finished (JoinResult.joined 11),
       JoinPhase.finished (JoinResult.joined 12)] ∧
    countNick wF.srv.db 1 carlos = 2 := by
  decide

/-- C1 (amended): when attempts are serialized (each request runs to
completion before the next), admission is exclusive: once a join for
(code, nickname) has succeeded against a roster previously free of that
nickname, every later attempt for the same pair is rejected with
NicknameTaken, and every session roster holds at most one row with that
nickname.  Under interleaving the guarantee fails (see the race above),
since neither a lock nor a store uniqueness constraint backs the check. -/
theorem C1_join_sequential_exclusive
    (now : Nat) (st st2 : SrvState) (gamePin newPlayerId pid : Nat)
    (nickname : String) (userId : Option Nat)
    (hfree : ∀ p ∈ st.db.player_sessions, (p.nickname == nickname) = false)
    (h : joinGame now st gamePin nickname userId newPlayerId true =
      (st2, JoinResult.joined pid)) :
    (∀ (now2 npid2 : Nat) (uid2 : Option Nat) (ok2 : Bool),
      (joinGame now2 st2 gamePin nickname uid2 npid2 ok2).2 =
        JoinResult.nicknameTaken) ∧
    ∀ sid : Nat, countNick st2.db sid nickname ≤ 1 := by
  unfold joinGame at h
  dsimp only at h
  cases hdp : dedupPass st.cache (gamePin, nickname) now with
  | none => rw [hdp] at h; simp at h
  | some cache1 =>
    rw [hdp] at h
    dsimp only at h
    cases hsess : selectSingle st.db.game_sessions
        (fun g => g.game_pin == gamePin && g.status == SessionStatus.waiting) with
    | none => rw [hsess] at h; simp at h
    | some gameSession =>
      rw [hsess] at h
      dsimp only at h
      cases hnick : selectSingle st.db.player_sessions
          (fun p => p.game_session_id == gameSession.id &&
            p.nickname == nickname) with
      | some q => rw [hnick] at h; simp at h
      | none =>
        rw [hnick] at h
        dsimp only at h
        injection h with hA hR
        subst hA
        have hl : st.db.player_sessions.filter
            (fun p => p.game_session_id == gameSession.id &&
              p.nickname == nickname) = [] :=
          List.filter_eq_nil_iff.mpr (fun p hp => by simp [hfree p hp])
        constructor
        · intro now2 npid2 uid2 ok2
          unfold joinGame
          dsimp only
          rw [filterFalseNil]
          dsimp only [dedupPass, cacheLookup, List.find?, Option.map]
          rw [hsess]
          dsimp only
          rw [selectSingle_append_one _ _ _ hl (by simp)]
        · intro sid
          unfold countNick
          dsimp only
          rw [List.filter_append]
          have hl2 : st.db.player_sessions.filter
              (fun p => p.game_session_id == sid && p.nickname == nickname) =
              [] :=
            List.filter_eq_nil_iff.mpr (fun p hp => by simp [hfree p hp])
          rw [hl2, List.nil_append]
          simpa using List.length_filter_le _
            [({ id := newPlayerId, game_session_id := gameSession.id,
                user_id := userId, nickname := nickname, score := 0 } :
              PlayerSessionRow)]

def stJ : SrvState := { db := dbJ, cache := [] }

def stJ2 : SrvState := (joinGame 0 stJ 111111 carlos none 10 true).1

/-- C1 witness: the sequential-exclusion statement at the fixture store. -/
theorem C1_join_sequential_exclusive_witness :
    (joinGame 100 stJ2 111111 carlos none 11 true).2 =
      JoinResult.nicknameTaken ∧
    countNick stJ2.db 1 carlos ≤ 1 := by
  have H := C1_join_sequential_exclusive 0 stJ stJ2 111111 10 10 carlos none
    (fun p hp => absurd hp (List.not_mem_nil p)) (by decide)
  exact ⟨H.1 100 11 none true, H.2 1⟩

/-- C8: a repeat join request for the same (code, nickname) fingerprint
recorded less than DEDUP_TIMEOUT (1000 ms) earlier is rejected with
TooFrequent and changes nothing; and a successful admission empties the
fingerprint cache at once, so no request arriving after a success can be
rejected with TooFrequent. -/
theorem C8_dedup_window_spec :
    (∀ (now lastRequest : Nat) (st : SrvState) (gamePin : Nat)
        (nickname : String) (userId : Option Nat) (newPlayerId : Nat)
        (insertOk : Bool),
      cacheLookup st.cache (gamePin, nickname) = some lastRequest →
      now - lastRequest < DEDUP_TIMEOUT →
      joinGame now st gamePin nickname userId newPlayerId insertOk =
        (st, JoinResult.tooFrequent)) ∧
    (∀ (now : Nat) (st st2 : SrvState) (gamePin newPlayerId pid : Nat)
        (nickname : String) (userId : Option Nat) (insertOk : Bool),
      joinGame now st gamePin nickname userId newPlayerId insertOk =
        (st2, JoinResult.joined pid) →
      st2.cache = [] ∧
      ∀ (now2 gp2 npid2 : Nat) (nick2 : String) (uid2 : Option Nat)
          (ok2 : Bool),
        (joinGame now2 st2 gp2 nick2 uid2 npid2 ok2).2 ≠
          JoinResult.tooFrequent) := by
  constructor
  · intro now lastRequest st gamePin nickname userId newPlayerId insertOk h1 h2
    unfold joinGame dedupPass
    dsimp only
    rw [h1]
    dsimp only
    rw [if_pos h2]
  · intro now st st2 gamePin newPlayerId pid nickname userId insertOk h
    unfold joinGame at h
    dsimp only at h
    have hst : st2.cache = [] := by
      split at h
      · simp at h
      · split at h
        · simp at h
        · split at h
          · simp at h
          · split at h
            · injection h with hA hR
              rw [← hA]
              exact filterFalseNil _
            · simp at h
    refine ⟨hst, ?_⟩
    intro now2 gp2 npid2 nick2 uid2 ok2
    unfold joinGame
    rw [hst]
    dsimp only [dedupPass, cacheLookup, List.find?, Option.map]
    (repeat' split) <;> simp

def stQ : SrvState := { db := dbJ, cache := [((111111, carlos), 0)] }

/-- C8 witness: the window rejection at a recorded fingerprint, and the
clear-on-success behavior after the fixture join. -/
theorem C8_dedup_window_spec_witness :
    joinGame 500 stQ 111111 carlos none 10 true =
      (stQ, JoinResult.tooFrequent) ∧
    stJ2.cache = [] ∧
    (joinGame 600 stJ2 111111 carlos none 11 true).2 ≠
      JoinResult.tooFrequent := by
  have H1 := C8_dedup_window_spec.1 500 0 stQ 111111 carlos none 10 true
    (by decide) (by decide)
  have H2 := C8_dedup_window_spec.2 0 stJ stJ2 111111 10 10 carlos none true
    (by decide)
  exact ⟨H1, H2.1, H2.2 600 111111 11 carlos none true⟩

/-- C10: after every successful join the handler calls
recentJoinRequests.clear(): the surviving cache is empty, so every
fingerprint entry — for every (game code, nickname) pair of every session,
related to the joining player or not — has been removed. -/
theorem C10_cache_cleared_globally :
    ∀ (now : Nat) (st st2 : SrvState) (gamePin newPlayerId pid : Nat)
      (nickname : String) (userId : Option Nat) (insertOk : Bool),
      joinGame now st gamePin nickname userId newPlayerId insertOk =
        (st2, JoinResult.joined pid) →
      st2.cache = [] ∧ ∀ k : Nat × String, cacheLookup st2.cache k = none := by
  intro now st st2 gamePin newPlayerId pid nickname userId insertOk h
  unfold joinGame at h
  dsimp only at h
  have hst : st2.cache = [] := by
    split at h
    · simp at h
    · split at h
      · simp at h
      · split at h
        · simp at h
        · split at h
          · injection h with hA hR
            rw [← hA]
            exact filterFalseNil _
          · simp at h
  exact ⟨hst, fun k => by rw [hst]; rfl⟩

/-- The cache before the C10 witness join: fingerprint entries of two
unrelated games are present. -/
def stC10 : SrvState :=
  { db := dbJ, cache := [((333333, dana), 0), ((222222, carlos), 100)] }

/-- C10 witness: the global clear observed after the fixture join, with a
cache previously holding entries for two unrelated games. -/
theorem C10_cache_cleared_globally_witness :
    ((joinGame 500 stC10 111111 carlos none 10 true).1).cache = [] ∧
    cacheLookup ((joinGame 500 stC10 111111 carlos none 10 true).1).cache
      ((222222 : Nat), carlos) = none := by
  have H := C10_cache_cleared_globally 500 stC10
    ((joinGame 500 stC10 111111 carlos none 10 true).1)
    111111 10 10 carlos none true (by decide)
  exact ⟨H.1, H.2 ((222222 : Nat), carlos)⟩

/-! Game code generation claims. -/

theorem findUniquePinAux_not_taken (db : Db) (rand : Nat → ℚ) :
    ∀ (fuel attempt gamePin : Nat),
      findUniquePinAux db rand attempt fuel = some gamePin →
      pinTakenWaiting db gamePin = false := by
  intro fuel
  induction fuel with
  | zero =>
    intro attempt gamePin h
    simp [findUniquePinAux] at h
  | succ n ih =>
    intro attempt gamePin h
    unfold findUniquePinAux at h
    dsimp only at h
    cases ht : pinTakenWaiting db (generateGamePin (rand attempt)) with
    | true =>
      rw [ht] at h
      simp at h
      exact ih _ _ h
    | false =>
      rw [ht] at h
      simp at h
      rw [← h]
      exact ht

/-- The active session with pin 222333 that the retry loop cannot see. -/
def sess9 : GameSessionRow :=
  { id := 1, quiz_id := 49, host_id := 91, game_pin := 222333,
    status := SessionStatus.active, current_question_index := 0 }

def db9 : Db :=
  { quizzes := [{ id := 50, creator_id := 90 }], questions := [],
    answer_options := [], game_sessions := [sess9],
    player_sessions := [], player_answers := [] }

def rand9 : Nat → ℚ := fun _ => (122333 : ℚ) / 900000

theorem generateGamePin_rand9 :
    generateGamePin ((122333 : ℚ) / 900000) = 222333 := by
  unfold generateGamePin
  have h : (100000 : ℚ) + (122333 : ℚ) / 900000 * 900000 = 222333 := by
    norm_num
  rw [h]
  norm_num
  decide

theorem findUniquePin_db9 : findUniquePin db9 rand9 = some 222333 := by
  unfold findUniquePin maxAttempts findUniquePinAux
  dsimp only [rand9]
  rw [generateGamePin_rand9]
  have ht : pinTakenWaiting db9 222333 = false := by decide
  rw [ht]
  rfl

theorem createGameSession_db9_run :
    createGameSession db9 rand9 50 90 2 =
      (db9, CreateResult.sessionCreationFailed) := by
  unfold createGameSession
  rw [findUniquePin_db9]
  decide

/-- C9 counterexample: with an ACTIVE (not completed) session holding pin
222333 and the random stream drawing exactly 222333, the retry loop accepts
222333 on the first draw — its collision probe looks only at waiting
sessions — and the subsequent insert then fails on the schema-wide UNIQUE
game_pin constraint with the generic session-creation failure, not
CodeGenerationFailed, without any retry.  So the generated code is not
checked for uniqueness among sessions that are waiting or active, as the
claim states. -/
theorem C9_pin_collision_with_active :
    findUniquePin db9 rand9 = some 222333 ∧
    (db9.game_sessions.any (fun g => g.game_pin == 222333 &&
      !(g.status == SessionStatus.completed))) = true ∧
    createGameSession db9 rand9 50 90 2 =
      (db9, CreateResult.sessionCreationFailed) :=
  ⟨findUniquePin_db9, by decide, createGameSession_db9_run⟩

/-- C9 (amended): generateGamePin always yields a 6-digit code (a value in
[100000, 999999]) for any random draw in [0, 1); the bounded retry loop (10
attempts) accepts a code exactly when no WAITING session carries it —
collisions with active sessions are invisible to it; and on either failure
outcome (all draws colliding with waiting sessions, yielding
CodeGenerationFailed, or the insert failing on the schema-wide pin
uniqueness, yielding the generic creation failure) no session is
persisted. -/
theorem C9_pin_generation_spec :
    (∀ r : ℚ, 0 ≤ r → r < 1 →
      100000 ≤ generateGamePin r ∧ generateGamePin r ≤ 999999) ∧
    (∀ (db : Db) (rand : Nat → ℚ) (gamePin : Nat),
      findUniquePin db rand = some gamePin →
      pinTakenWaiting db gamePin = false) ∧
    (∀ (db db2 : Db) (rand : Nat → ℚ) (quizId hostId newSessionId : Nat),
      createGameSession db rand quizId hostId newSessionId =
        (db2, CreateResult.codeGenerationFailed) → db2 = db) ∧
    (∀ (db db2 : Db) (rand : Nat → ℚ) (quizId hostId newSessionId : Nat),
      createGameSession db rand quizId hostId newSessionId =
        (db2, CreateResult.sessionCreationFailed) → db2 = db) := by
  refine ⟨?_, ?_, ?_, ?_⟩
  · intro r h0 h1
    unfold generateGamePin
    have hf1 : (100000 : ℤ) ≤ Int.floor ((100000 : ℚ) + r * 900000) := by
      apply Int.le_floor.mpr
      push_cast
      nlinarith
    have hf2 : Int.floor ((100000 : ℚ) + r * 900000) < 1000000 := by
      apply Int.floor_lt.mpr
      push_cast
      nlinarith
    omega
  · intro db rand gamePin h
    exact findUniquePinAux_not_taken db rand maxAttempts 0 gamePin h
  · intro db db2 rand quizId hostId newSessionId h
    unfold createGameSession at h
    split at h
    · simp at h
    · split at h
      · simp at h
      · split at h
        · simp at h
          exact h.symm
        · split at h
          · simp at h
          · simp at h
  · intro db db2 rand quizId hostId newSessionId h
    unfold createGameSession at h
    split at h
    · simp at h
    · split at h
      · simp at h
      · split at h
        · simp at h
        · split at h
          · simp at h
            exact h.symm
          · simp at h

/-- The waiting session holding pin 100000, which every draw of the
constant-zero random stream collides with. -/
def sessW : GameSessionRow :=
  { id := 1, quiz_id := 50, host_id := 90, game_pin := 100000,
    status := SessionStatus.waiting, current_question_index := 0 }

def dbW : Db :=
  { quizzes := [{ id := 50, creator_id := 90 }], questions := [],
    answer_options := [], game_sessions := [sessW],
    player_sessions := [], player_answers := [] }

def rand0 : Nat → ℚ := fun _ => 0

theorem generateGamePin_zero : generateGamePin 0 = 100000 := by
  unfold generateGamePin
  have h : (100000 : ℚ) + 0 * 900000 = 100000 := by norm_num
  rw [h]
  norm_num
  decide

theorem findUniquePin_dbW : findUniquePin dbW rand0 = none := by
  have ht : pinTakenWaiting dbW 100000 = true := by decide
  simp [findUniquePin, maxAttempts, findUniquePinAux, rand0,
    generateGamePin_zero, ht]

theorem createGameSession_dbW_run :
    createGameSession dbW rand0 50 90 2 =
      (dbW, CreateResult.codeGenerationFailed) := by
  unfold createGameSession
  rw [findUniquePin_dbW]
  decide

/-- C9 witness: the amended statement instantiated at a concrete draw, at
the collision fixture, and at the two failure runs. -/
theorem C9_pin_generation_spec_witness :
    (100000 ≤ generateGamePin (1 / 2) ∧ generateGamePin (1 / 2) ≤ 999999) ∧
    pinTakenWaiting db9 222333 = false ∧
    (createGameSession dbW rand0 50 90 2).1 = dbW ∧
    (createGameSession db9 rand9 50 90 2).1 = db9 := by
  refine ⟨C9_pin_generation_spec.1 (1 / 2) (by norm_num) (by norm_num),
    ?_, ?_, ?_⟩
  · exact C9_pin_generation_spec.2.1 db9 rand9 222333 findUniquePin_db9
  · exact C9_pin_generation_spec.2.2.1 dbW _ rand0 50 90 2
      (by rw [createGameSession_dbW_run])
  · exact C9_pin_generation_spec.2.2.2 db9 _ rand9 50 90 2
      (by rw [createGameSession_db9_run])

end SmartQuiz
